import Mathlib

/-!
Shallow embedding of the alexa-mcp-server dynamic device-resolution,
capability-state-normalization, discovery-cache and control-dispatch layer,
together with theorems settling the specification claims against it.

Each definition is translated from the TypeScript source file named in its
doc comment.  JavaScript truthiness of optional string fields is modelled
explicitly (absent or empty strings are falsy); upstream fetches are
modelled as explicit inputs (response values or lookup functions).
-/

namespace Alexa

/-- JS truthiness of an optionally-present string field: an absent field
(undefined) and the empty string are falsy, every other string is truthy. -/
def truthyS : Option String → Bool
  | none => false
  | some s => !s.isEmpty

/-- An optional-chaining boolean test such as the JS expression
x?.f(...) used in a condition: an absent receiver yields false. -/
def optTest (p : String → Bool) : Option String → Bool
  | none => false
  | some s => p s

/-- Char-list test that pat is a leading segment of the second list. -/
def startsWithL : List Char → List Char → Bool
  | [], _ => true
  | _ :: _, [] => false
  | p :: ps, c :: cs => p == c && startsWithL ps cs

/-- Char-list version of the JS String.includes substring test. -/
def containsL : List Char → List Char → Bool
  | pat, [] => pat.isEmpty
  | pat, c :: cs => startsWithL pat (c :: cs) || containsL pat cs

/-- Char-list version of the JS expression s.replace(pat, with the empty
replacement string): the first occurrence of pat, if any, is removed. -/
def removeFirstL (pat : List Char) : List Char → List Char
  | [] => []
  | c :: cs =>
    if startsWithL pat (c :: cs) then (c :: cs).drop pat.length
    else c :: removeFirstL pat cs

/-- JS String.includes on strings. -/
def strContains (s pat : String) : Bool := containsL pat.data s.data

/-- JS s.replace(pat, empty) on strings: remove the first occurrence. -/
def strRemoveFirst (s pat : String) : String := String.mk (removeFirstL pat.data s.data)

/-- JS String.toLowerCase, modelled character-wise (the device names and
family strings involved are ASCII). -/
def strToLower (s : String) : String := String.mk (s.data.map Char.toLower)

/-- One discovered smart-home device record, carrying the identifier
variants and favorite metadata read by the resolution layer
(src/utils/alexa-dynamic.ts): the chrs legacy identifier
(alternateIdentifiers.legacyIdentifiers.chrsIdentifier.entityId), the
generic identifier.entityId, the favorites resource.id, the serial number,
and the favorite fields (active, type,
displayInfo.displayCategories.primary.value). -/
structure Device where
  chrsEntityId : Option String := none
  identifierEntityId : Option String := none
  resourceId : Option String := none
  serialNumber : Option String := none
  favoriteFriendlyName : Option String := none
  active : Bool := true
  type : String := "ENDPOINT"
  primaryCategory : Option String := none
deriving DecidableEq

/-- extractEntityId from src/utils/alexa-dynamic.ts lines 441-459: chrs
identifier first, then identifier.entityId, then the resource id with the
endpoint-namespace marker (first occurrence removed), then the serial
number, finally the raw resource id. -/
def extractEntityId (d : Device) : Option String :=
  if truthyS d.chrsEntityId then d.chrsEntityId
  else if truthyS d.identifierEntityId then d.identifierEntityId
  else if optTest (fun rid => strContains rid "endpoint.") d.resourceId then
    d.resourceId.map (fun rid => strRemoveFirst rid "amzn1.alexa.endpoint.")
  else if truthyS d.serialNumber then d.serialNumber
  else d.resourceId

/-- buildEndpointId from src/utils/alexa-dynamic.ts lines 462-467. -/
def buildEndpointId (entityId : String) : String :=
  if startsWithL "amzn1.alexa.endpoint.".data entityId.data then entityId
  else "amzn1.alexa.endpoint." ++ entityId

/-- getSmartHomeEntities from src/utils/alexa-dynamic.ts lines 267-276:
keep the active favorites of type ENDPOINT. -/
def getSmartHomeEntities (favorites : List Device) : List Device :=
  favorites.filter (fun f => f.active && f.type == "ENDPOINT")

/-- The category filter inside getPrimaryLight (alexa-dynamic.ts 283-286):
smart-home entities whose primary display category is LIGHT. -/
def lightDevices (favorites : List Device) : List Device :=
  (getSmartHomeEntities favorites).filter (fun d => d.primaryCategory == some "LIGHT")

/-- getPrimaryLight from src/utils/alexa-dynamic.ts lines 279-294: error
when no light matches, otherwise the first light device. -/
def getPrimaryLight (favorites : List Device) : Except String Device :=
  match lightDevices favorites with
  | [] => Except.error "No smart home light devices found"
  | l :: _ => Except.ok l

/-- The id column of the listLights REST response (lights route):
each light device mapped through extractEntityId. -/
def listLightIds (favorites : List Device) : List (Option String) :=
  (lightDevices favorites).map extractEntityId

/-- getFirstAvailableLight from src/mcp/tools/lights.ts lines 12-37,
applied to the id list served by the lights list route: error when the
list is empty, otherwise the first id. -/
def getFirstAvailableLight (lightIds : List (Option String)) : Except String (Option String) :=
  match lightIds with
  | [] => Except.error "No lights found in your account"
  | l :: _ => Except.ok l

/-- CACHE_TTL from src/utils/alexa-dynamic.ts line 12: five minutes in
milliseconds. -/
def CACHE_TTL : Nat := 5 * 60 * 1000

/-- One discovery-cache entry (alexa-dynamic.ts line 11): the stored value
with its insertion timestamp in milliseconds. -/
structure CacheEntry (V : Type) where
  value : V
  timestamp : Nat

/-- The process-wide discovery cache (a JS Map), modelled as an
association list in which the most recent set for a key is found first. -/
abbrev Cache (V : Type) : Type := List (String × CacheEntry V)

/-- The empty cache. -/
def cacheEmpty (V : Type) : Cache V := []

/-- getCached from src/utils/alexa-dynamic.ts lines 14-20: the stored
value when the key is present and strictly younger than CACHE_TTL,
otherwise absent. -/
def getCached {V : Type} (cache : Cache V) (key : String) (now : Nat) : Option V :=
  match cache.find? (fun p => p.1 == key) with
  | some p => if now - p.2.timestamp < CACHE_TTL then some p.2.value else none
  | none => none

/-- setCache from src/utils/alexa-dynamic.ts lines 22-24: store the value
under the key with the current timestamp (overwriting any older entry). -/
def setCache {V : Type} (cache : Cache V) (key : String) (value : V) (now : Nat) : Cache V :=
  (key, ⟨value, now⟩) :: cache

/-- The read-through pattern shared by the discovery calls
(getAccountInfo, getAlexaEndpoints, getAlexaDevices, getSmartHomeFavorites
in alexa-dynamic.ts): on a cache hit return the cached value with no
upstream call, on a miss fetch upstream, cache and return the fresh value.
The Bool component records whether an upstream fetch was made. -/
def fetchWithCache {V : Type} (cache : Cache V) (key : String) (now : Nat) (upstream : V) :
    V × Bool × Cache V :=
  match getCached cache key now with
  | some v => (v, false, cache)
  | none => (upstream, true, setCache cache key upstream now)

/-- The value carried by one capability record: a number, a string, the
scaled object shape (value plus scale, as delivered by the temperature
sensor), or null. -/
inductive CapValue where
  | num (q : ℚ)
  | str (s : String)
  | scaled (value : ℚ) (scale : String)
  | nullv
deriving DecidableEq

/-- One decoded capability record: namespace, name, value and sample
timestamp, as produced by JSON.parse of a phoenix capability state. -/
structure CapRecord where
  ns : String
  name : String
  value : CapValue
  timeOfSample : Option String := none
deriving DecidableEq

/-- One entry of a capabilityStates array as delivered upstream: either a
JSON-encoded string still needing a decode pass, or an already-decoded
record. -/
inductive CapInput where
  | encoded (s : String)
  | decoded (cap : CapRecord)
deriving DecidableEq

/-- The per-entry decode step of src/api/v1/sensors.ts lines 166-168: a
string entry goes through JSON.parse (modelled by the parseJsonCap
argument, none meaning a parse failure that JS raises and the handler
catches), a non-string entry is used as-is. -/
def decodeCap (parseJsonCap : String → Option CapRecord) : CapInput → Option CapRecord
  | CapInput.decoded cap => some cap
  | CapInput.encoded s => parseJsonCap s

/-- The nested numeric value of a scaled capability value
(cap.value?.value in JS, undefined for the other shapes). -/
def CapValue.innerNum : CapValue → Option ℚ
  | CapValue.scaled v _ => some v
  | _ => none

/-- The nested scale of a scaled capability value (cap.value?.scale). -/
def CapValue.innerScale : CapValue → Option String
  | CapValue.scaled _ s => some s
  | _ => none

/-- The temperature bucket built in src/api/v1/sensors.ts lines 170-175. -/
structure TempReading where
  value : Option ℚ
  scale : Option String
  timestamp : Option String
deriving DecidableEq

/-- The capabilities object of one sensor in the sensors-all response
(src/api/v1/sensors.ts lines 158-190), with absent buckets as none. -/
structure SensorCaps where
  temperature : Option TempReading := none
  illuminance : Option (CapValue × Option String) := none
  motion : Option (Bool × Option String) := none
deriving DecidableEq

/-- The bucketing step of src/api/v1/sensors.ts lines 170-186: a decoded
record lands in the temperature, illuminance or motion bucket according to
its namespace and name, anything else is ignored; a later record for the
same bucket overwrites an earlier one. -/
def bucketCap (acc : SensorCaps) (cap : CapRecord) : SensorCaps :=
  if cap.ns == "Alexa.TemperatureSensor" && cap.name == "temperature" then
    { acc with temperature := some ⟨cap.value.innerNum, cap.value.innerScale, cap.timeOfSample⟩ }
  else if cap.ns == "Alexa.LightSensor" && cap.name == "illuminance" then
    { acc with illuminance := some (cap.value, cap.timeOfSample) }
  else if cap.ns == "Alexa.MotionSensor" && cap.name == "detectionState" then
    { acc with motion := some (cap.value == CapValue.str "DETECTED", cap.timeOfSample) }
  else acc

/-- The capability-states loop of src/api/v1/sensors.ts lines 166-190:
each entry is decoded and bucketed; an entry whose decode fails is dropped
and the loop continues with the rest of the batch. -/
def processCapStates (parseJsonCap : String → Option CapRecord) (caps : List CapInput) :
    SensorCaps :=
  caps.foldl
    (fun acc c =>
      match decodeCap parseJsonCap c with
      | some cap => bucketCap acc cap
      | none => acc)
    {}

/-- The value-plus-scale shape of a temperature capability
(cap.value with fields value and scale). -/
structure TempValue where
  value : ℚ
  scale : String
deriving DecidableEq

/-- The temperature extraction of the bedroom handler (lines 234-247 of
the bedroom route source): a CELSIUS reading yields celsius as-is and
fahrenheit as value times nine fifths plus thirty-two, a FAHRENHEIT
reading yields fahrenheit as-is and celsius as value minus thirty-two
times five ninths; any other scale yields neither. -/
def extractTemperature : Option TempValue → Option ℚ × Option ℚ
  | none => (none, none)
  | some tv =>
    if tv.scale == "CELSIUS" then (some tv.value, some (tv.value * 9 / 5 + 32))
    else if tv.scale == "FAHRENHEIT" then (some ((tv.value - 32) * 5 / 9), some tv.value)
    else (none, none)

/-- The JS coalescing x or-else null on a numeric field: an absent value
stays absent, and the falsy value zero also becomes null. -/
def jsNumOrNull : Option ℚ → Option ℚ
  | none => none
  | some x => if x = 0 then none else some x

/-- The JS coalescing x or-else zero on a numeric field. -/
def jsNumOrZero : Option ℚ → ℚ
  | none => 0
  | some x => if x = 0 then 0 else x

/-- The JS coalescing x or-else null on a string field (the empty string
is falsy). -/
def jsStrOrNull : Option String → Option String
  | none => none
  | some s => if s.isEmpty then none else some s

/-- The bedroom-state response body built at lines 249-265 of the bedroom
route source (the fields the claims are about). -/
structure BedroomResponse where
  celsius : Option ℚ
  fahrenheit : Option ℚ
  illuminance : Option ℚ
  motionDetected : Bool
  lightOn : Bool
  brightness : ℚ
  color : Option String
deriving DecidableEq

/-- The response assembly of the bedroom handler (lines 249-265): the two
temperature units from extractTemperature and the illuminance value are
coalesced with or-else null, brightness with or-else zero, the motion and
power sentinels are compared against DETECTED and ON, and the color value
is coalesced with or-else null. -/
def buildBedroomResponse (temp : Option TempValue) (illuminanceValue : Option ℚ)
    (motionValue : Option String) (powerValue : Option String)
    (brightnessValue : Option ℚ) (colorValue : Option String) : BedroomResponse :=
  let conv := extractTemperature temp
  { celsius := jsNumOrNull conv.1
  , fahrenheit := jsNumOrNull conv.2
  , illuminance := jsNumOrNull illuminanceValue
  , motionDetected := optTest (fun m => m == "DETECTED") motionValue
  , lightOn := optTest (fun p => p == "ON") powerValue
  , brightness := jsNumOrZero brightnessValue
  , color := jsStrOrNull colorValue }

/-- One entry of the allDeviceVolumes list read by the volume routes
(src/api/v1/volume.ts). -/
structure VolumeEntry where
  deviceType : String
  dsn : String
  speakerVolume : Int
deriving DecidableEq

/-- The body of the speakerVolume PUT issued by the volume routes
(src/api/v1/volume.ts lines 92-99). -/
structure SpeakerVolumeWrite where
  dsn : String
  deviceType : String
  amount : Int
  volume : Int
  muted : Bool
  synchronous : Bool
deriving DecidableEq

/-- Outcome of the volume set route before the upstream write response:
the 400 validation error, the 404 empty-list and unknown-device errors,
or the single write it issues. -/
inductive VolumeSetResult where
  | badRequest (msg : String)
  | noDevices (msg : String)
  | deviceNotFound (msg : String)
  | write (w : SpeakerVolumeWrite)
deriving DecidableEq

/-- The target-device selection of the volume set and adjust routes
(src/api/v1/volume.ts lines 67-76): when both deviceType and dsn are given
(truthy) find the matching entry, otherwise use the first entry. -/
def volumeTarget (volumes : List VolumeEntry) (deviceType dsn : Option String) :
    Option VolumeEntry :=
  if truthyS deviceType && truthyS dsn then
    volumes.find? (fun v => deviceType == some v.deviceType && dsn == some v.dsn)
  else volumes.head?

/-- The volume set route, src/api/v1/volume.ts lines 36-99, up to the
write it issues: validate the 0-100 range, read the full device-volume
list (the volumes argument), select the target device, and issue one
adjust-style write whose amount is target minus the pre-read current
volume and which carries that current volume. -/
def volumeSet (volumes : List VolumeEntry) (deviceType dsn : Option String) (volume : Int) :
    VolumeSetResult :=
  if volume < 0 ∨ volume > 100 then VolumeSetResult.badRequest "Volume must be between 0 and 100"
  else if volumes.isEmpty then VolumeSetResult.noDevices "No devices found"
  else
    match volumeTarget volumes deviceType dsn with
    | none => VolumeSetResult.deviceNotFound "Specified device not found"
    | some t =>
      VolumeSetResult.write
        { dsn := t.dsn
        , deviceType := t.deviceType
        , amount := volume - t.speakerVolume
        , volume := t.speakerVolume
        , muted := false
        , synchronous := true }

/-- The day test of the announce handler (announce route source lines
34-42): the configured-timezone hour is a day hour when it is at least 10
and below 22. -/
def isDay (hour : Int) : Bool := decide (10 ≤ hour) && decide (hour < 22)

/-- isAnyLightOn from src/utils/alexa.ts lines 35-78: resolve the primary
light via getPrimaryLight, extract its entity id, read its power state
(the fetchPower argument models the phoenix power-state read, none
meaning a failed request or a missing powerState capability), and compare
the value against ON; any failure along the way yields null (none). -/
def isAnyLightOn (favorites : List Device) (fetchPower : String → Option String) :
    Option Bool :=
  match getPrimaryLight favorites with
  | Except.error _ => none
  | Except.ok d =>
    match extractEntityId d with
    | none => none
    | some entityId =>
      match fetchPower entityId with
      | none => none
      | some v => some (v == "ON")

/-- The night gate of the announce handler (announce route source lines
44-53): during day hours the request proceeds without consulting light
state; at night the request is suppressed exactly when isAnyLightOn
returns false (a null check result lets the request proceed).  true means
the announcement proceeds to dispatch. -/
def announceNightGate (hour : Int) (favorites : List Device)
    (fetchPower : String → Option String) : Bool :=
  if isDay hour then true
  else
    match isAnyLightOn favorites fetchPower with
    | some false => false
    | _ => true

/-- Claim-side predicate (spec wording of C7): some discovered light
device reports power-state ON. -/
def anyLightReportsOn (favorites : List Device) (fetchPower : String → Option String) : Bool :=
  (lightDevices favorites).any (fun d =>
    match extractEntityId d with
    | some e => fetchPower e == some "ON"
    | none => false)

/-- Claim-side predicate (spec wording of C7): every discovered light
device reports power-state OFF. -/
def allLightsReportOff (favorites : List Device) (fetchPower : String → Option String) : Bool :=
  (lightDevices favorites).all (fun d =>
    match extractEntityId d with
    | some e => fetchPower e == some "OFF"
    | none => false)

/-- An upstream HTTP response as seen by the dispatch helpers: status code
and body text. -/
structure UpstreamResponse where
  status : Nat
  body : String
deriving DecidableEq

/-- The fetch Response.ok flag: status in the 2xx range. -/
def respOk (r : UpstreamResponse) : Bool := decide (200 ≤ r.status) && decide (r.status ≤ 299)

/-- controlLight from the lights route source lines 98-133: a non-2xx
phoenix control response is surfaced as a thrown error whose message
carries the status code (and nothing of the body). -/
def controlLight (r : UpstreamResponse) : Except String String :=
  if respOk r then Except.ok r.body
  else Except.error ("Alexa control API error: " ++ toString r.status)

/-- controlLightGraphQL from the lights route source lines 136-207: a
non-2xx graph mutation response is surfaced as a thrown error whose
message carries the status code (and nothing of the body). -/
def controlLightGraphQL (r : UpstreamResponse) : Except String String :=
  if respOk r then Except.ok r.body
  else Except.error ("Alexa GraphQL API error: " ++ toString r.status)

/-- The upstream-failure handling of the volume set route
(src/api/v1/volume.ts lines 102-105): a non-2xx write response becomes a
JSON error carrying the status code both as the response status and
inside the message together with the body text. -/
def volumeSetUpstream (r : UpstreamResponse) : Except (Nat × String) String :=
  if respOk r then Except.ok r.body
  else Except.error (r.status, "Set volume failed: " ++ toString r.status ++ " - " ++ r.body)

/-- The upstream-failure handling of the DND status read
(src/api/v1/dnd.ts lines 28-31): status code and body text inside the
message, surfaced with a 502. -/
def dndStatusUpstream (r : UpstreamResponse) : Except String String :=
  if respOk r then Except.ok r.body
  else Except.error ("Alexa API error: " ++ toString r.status ++ " - " ++ r.body)

/-- The structured error body of the announce handler (announce route
source lines 76-85) and of the bedroom handler: fixed error text plus the
upstream status and body. -/
structure AnnounceError where
  error : String
  status : Nat
  body : String
deriving DecidableEq

/-- The upstream-failure handling of the announce dispatch: a non-2xx
response becomes the structured error carrying status and body. -/
def announceDispatch (r : UpstreamResponse) : Except AnnounceError String :=
  if respOk r then Except.ok r.body
  else Except.error ⟨"Alexa API error", r.status, r.body⟩

/-- One record of the flat registered-device list
(api/devices-v2/device), with the fields the Echo classification reads. -/
structure FlatDevice where
  deviceFamily : Option String := none
  deviceType : Option String := none
  accountName : Option String := none
  deviceName : Option String := none
  online : Bool := true
  serialNumber : String := ""
deriving DecidableEq

/-- The Echo-device test of the sensors list route, src/api/v1/sensors.ts
lines 36-38: device family exactly ECHO, or device type containing ECHO
(case-sensitive), or account name or device name containing echo after
lowercasing. -/
def isEchoSensorDevice (d : FlatDevice) : Bool :=
  d.deviceFamily == some "ECHO"
  || optTest (fun t => strContains t "ECHO") d.deviceType
  || optTest (fun n => strContains (strToLower n) "echo") d.accountName
  || optTest (fun n => strContains (strToLower n) "echo") d.deviceName

/-- getPrimaryEchoDevice from src/utils/alexa-dynamic.ts lines 111-125:
the first online device whose family is exactly ECHO, or an error when
there is none. -/
def getPrimaryEchoDevice (devices : List FlatDevice) : Except String FlatDevice :=
  match devices.filter (fun d => d.deviceFamily == some "ECHO" && d.online) with
  | [] => Except.error "No online Echo devices found"
  | d :: _ => Except.ok d

/-- Claim-side predicate (spec wording of C9): case-insensitive substring
match of echo on the family or device-type field. -/
def echoClaimCI (d : FlatDevice) : Bool :=
  optTest (fun f => strContains (strToLower f) "echo") d.deviceFamily
  || optTest (fun t => strContains (strToLower t) "echo") d.deviceType

/-- A list starts with itself followed by anything. -/
lemma startsWithL_self_append : ∀ (p r : List Char), startsWithL p (p ++ r) = true
  | [], _ => rfl
  | c :: cs, r => by simp [startsWithL, startsWithL_self_append cs r]

/-- A leading occurrence is an occurrence. -/
lemma containsL_of_startsWithL : ∀ {p s : List Char}, startsWithL p s = true → containsL p s = true
  | p, [], h => by
    cases p with
    | nil => rfl
    | cons c cs => simp [startsWithL] at h
  | p, c :: cs, h => by simp [containsL, h]

/-- A pattern occurs in any list of the shape x plus pattern plus y. -/
lemma containsL_parts (p : List Char) : ∀ (x y : List Char), containsL p (x ++ (p ++ y)) = true
  | [], y => by simpa using containsL_of_startsWithL (startsWithL_self_append p y)
  | c :: cs, y => by simp [containsL, containsL_parts p cs y]

/-- String-level version of containsL_parts for a middle segment. -/
lemma strContains_parts (x t y : String) : strContains (x ++ t ++ y) t = true := by
  have h := containsL_parts t.data x.data y.data
  simpa [strContains, String.data_append, List.append_assoc] using h

/-- String-level version of containsL_parts for a final segment. -/
lemma strContains_final (x t : String) : strContains (x ++ t) t = true := by
  have h := containsL_parts t.data x.data []
  simpa [strContains, String.data_append] using h

/-- Unfolding an optional-chaining test into an existential. -/
lemma optTest_eq_true (p : String → Bool) (o : Option String) :
    optTest p o = true ↔ ∃ s, o = some s ∧ p s = true := by
  cases o <;> simp [optTest]

/-- Device record exercising the first branch of the entity-id
precedence. -/
def entityIdWitDevice : Device := { chrsEntityId := some "chrs-42" }

/-- Device record refuting the serial-number fallback of claim C1: no
chrs identifier, no generic identifier, a resource id without the
endpoint marker, and no serial number at all. -/
def entityIdCexDevice : Device := { resourceId := some "amzn1.alexa.scene.42" }

/-- C1: entity-id extraction follows the fixed first-match-wins
precedence: the legacy chrs identifier when present and non-empty, else
the generic identifier.entityId, else — when the resource id contains the
endpoint marker — the resource id with the first occurrence of the fixed
namespace string removed, else the serial number when it is present and
non-empty, and otherwise (the amendment) the raw resource id. -/
theorem extractEntityId_precedence (d : Device) :
    (truthyS d.chrsEntityId = true → extractEntityId d = d.chrsEntityId)
    ∧ (truthyS d.chrsEntityId = false → truthyS d.identifierEntityId = true →
        extractEntityId d = d.identifierEntityId)
    ∧ (∀ rid, truthyS d.chrsEntityId = false → truthyS d.identifierEntityId = false →
        d.resourceId = some rid → strContains rid "endpoint." = true →
        extractEntityId d = some (strRemoveFirst rid "amzn1.alexa.endpoint."))
    ∧ (truthyS d.chrsEntityId = false → truthyS d.identifierEntityId = false →
        optTest (fun rid => strContains rid "endpoint.") d.resourceId = false →
        (truthyS d.serialNumber = true → extractEntityId d = d.serialNumber)
        ∧ (truthyS d.serialNumber = false → extractEntityId d = d.resourceId)) := by
  refine ⟨?_, ?_, ?_, ?_⟩
  · intro h1
    simp [extractEntityId, h1]
  · intro h1 h2
    simp [extractEntityId, h1, h2]
  · intro rid h1 h2 hr hc
    simp [extractEntityId, h1, h2, hr, optTest, hc]
  · intro h1 h2 h3
    exact ⟨fun h4 => by simp [extractEntityId, h1, h2, h3, h4],
           fun h4 => by simp [extractEntityId, h1, h2, h3, h4]⟩

/-- Witness for C1: a record carrying a chrs identifier yields it. -/
theorem extractEntityId_precedence_witness :
    extractEntityId entityIdWitDevice = entityIdWitDevice.chrsEntityId :=
  (extractEntityId_precedence entityIdWitDevice).1 (by decide)

/-- Counterexample to C1 as stated: in the final fallback case a record
with no serial number is mapped to its raw resource id, so the extraction
does not return the serial number there. -/
theorem extractEntityId_claim_counterexample :
    truthyS entityIdCexDevice.chrsEntityId = false
    ∧ truthyS entityIdCexDevice.identifierEntityId = false
    ∧ optTest (fun rid => strContains rid "endpoint.") entityIdCexDevice.resourceId = false
    ∧ entityIdCexDevice.serialNumber = none
    ∧ extractEntityId entityIdCexDevice = some "amzn1.alexa.scene.42"
    ∧ extractEntityId entityIdCexDevice ≠ entityIdCexDevice.serialNumber := by
  decide

/-- C2: a discovery-cache get returns the stored value exactly when the
key was set and strictly less than CACHE_TTL milliseconds have elapsed;
an entry aged exactly CACHE_TTL or more is treated as absent; a get on an
empty cache or another key behaves as if the set had not happened; the
read-through fetch at insertion plus 299 seconds serves the cached value
without an upstream call, while at insertion plus 301 seconds it performs
a fresh upstream fetch. -/
theorem cache_ttl_contract {V : Type} (c : Cache V) (k : String) (v upstream : V) (t0 d : Nat) :
    (d < CACHE_TTL → getCached (setCache c k v t0) k (t0 + d) = some v)
    ∧ (CACHE_TTL ≤ d → getCached (setCache c k v t0) k (t0 + d) = none)
    ∧ getCached (cacheEmpty V) k (t0 + d) = none
    ∧ (∀ k2, k2 ≠ k → getCached (setCache c k v t0) k2 (t0 + d) = getCached c k2 (t0 + d))
    ∧ fetchWithCache (setCache c k v t0) k (t0 + 299000) upstream = (v, false, setCache c k v t0)
    ∧ ((fetchWithCache (setCache c k v t0) k (t0 + 301000) upstream).2.1 = true
        ∧ (fetchWithCache (setCache c k v t0) k (t0 + 301000) upstream).1 = upstream) := by
  have hget : ∀ t, getCached (setCache c k v t0) k t =
      if t - t0 < CACHE_TTL then some v else none := by
    intro t
    simp [getCached, setCache, List.find?]
  refine ⟨?_, ?_, ?_, ?_, ?_, ?_, ?_⟩
  · intro h
    rw [hget, Nat.add_sub_cancel_left]
    exact if_pos h
  · intro h
    rw [hget, Nat.add_sub_cancel_left]
    exact if_neg (Nat.not_lt.mpr h)
  · simp [getCached, cacheEmpty, List.find?]
  · intro k2 hk
    have hne : (k == k2) = false := beq_eq_false_iff_ne.mpr fun h => hk h.symm
    simp [getCached, setCache, List.find?, hne]
  · have h299 : getCached (setCache c k v t0) k (t0 + 299000) = some v := by
      rw [hget, Nat.add_sub_cancel_left]
      exact if_pos (by decide)
    simp [fetchWithCache, h299]
  · have h301 : getCached (setCache c k v t0) k (t0 + 301000) = none := by
      rw [hget, Nat.add_sub_cancel_left]
      exact if_neg (by decide)
    simp [fetchWithCache, h301]
  · have h301 : getCached (setCache c k v t0) k (t0 + 301000) = none := by
      rw [hget, Nat.add_sub_cancel_left]
      exact if_neg (by decide)
    simp [fetchWithCache, h301]

/-- Witness for C2: a value cached at time 0 is still served 299 seconds
later. -/
theorem cache_ttl_contract_witness :
    getCached (setCache (cacheEmpty Nat) "account_info" 7 0) "account_info" (0 + 299000)
      = some 7 :=
  (cache_ttl_contract (cacheEmpty Nat) "account_info" 7 9 0 299000).1 (by decide)

/-- Concrete well-formed temperature record for the C3 witness. -/
def capTempGood : CapRecord :=
  ⟨"Alexa.TemperatureSensor", "temperature", CapValue.scaled 21 "CELSIUS", some "t1"⟩

/-- Concrete well-formed illuminance record for the C3 witness. -/
def capIllumGood : CapRecord :=
  ⟨"Alexa.LightSensor", "illuminance", CapValue.num 5, some "t2"⟩

/-- Concrete decode table for the C3 witness: one known well-formed
encoded entry, everything else fails to parse. -/
def capParseTable : String → Option CapRecord :=
  fun s => if s == "temp-entry" then some capTempGood else none

/-- C3: the capability-state loop never aborts on a malformed entry: a
batch containing one entry whose decode fails normalizes to exactly the
same result as the batch with that entry removed, so every other
well-formed entry is still decoded and bucketed. -/
theorem decode_tolerance (parseJsonCap : String → Option CapRecord)
    (pre post : List CapInput) (bad : CapInput)
    (hbad : decodeCap parseJsonCap bad = none) :
    processCapStates parseJsonCap (pre ++ bad :: post)
      = processCapStates parseJsonCap (pre ++ post) := by
  unfold processCapStates
  rw [List.foldl_append, List.foldl_append, List.foldl_cons]
  simp [hbad]

/-- Witness for C3: with a malformed entry between two well-formed ones
the normalizer returns the same non-empty result as without it, with both
the temperature and the illuminance buckets filled. -/
theorem decode_tolerance_witness :
    processCapStates capParseTable
        [CapInput.encoded "temp-entry", CapInput.encoded "bad-entry",
          CapInput.decoded capIllumGood]
      = processCapStates capParseTable
          [CapInput.encoded "temp-entry", CapInput.decoded capIllumGood]
    ∧ (processCapStates capParseTable
        [CapInput.encoded "temp-entry", CapInput.decoded capIllumGood]).temperature.isSome
        = true
    ∧ (processCapStates capParseTable
        [CapInput.encoded "temp-entry", CapInput.decoded capIllumGood]).illuminance.isSome
        = true :=
  ⟨decode_tolerance capParseTable [CapInput.encoded "temp-entry"]
      [CapInput.decoded capIllumGood] (CapInput.encoded "bad-entry") rfl,
    rfl, rfl⟩

/-- C4: the bedroom normalizer makes both temperature units available: a
CELSIUS reading of value c yields fahrenheit c times nine fifths plus 32,
a FAHRENHEIT reading of value f yields celsius f minus 32 times five
ninths, and in particular a 20.0 degree Celsius reading yields 68.0
degrees Fahrenheit, well within the 0.01 tolerance. -/
theorem temperature_conversion (c f : ℚ) :
    extractTemperature (some ⟨c, "CELSIUS"⟩) = (some c, some (c * 9 / 5 + 32))
    ∧ extractTemperature (some ⟨f, "FAHRENHEIT"⟩) = (some ((f - 32) * 5 / 9), some f)
    ∧ extractTemperature (some ⟨20, "CELSIUS"⟩) = (some 20, some 68)
    ∧ |(68 : ℚ) - (20 * 9 / 5 + 32)| ≤ 1 / 100 := by
  refine ⟨?_, ?_, ?_, ?_⟩
  · simp [extractTemperature]
  · simp [extractTemperature]
  · norm_num [extractTemperature]
  · norm_num

/-- First light of the C5 witness favorites. -/
def lightWitA : Device := { chrsEntityId := some "lw-1", primaryCategory := some "LIGHT" }

/-- Second light of the C5 witness favorites. -/
def lightWitB : Device := { chrsEntityId := some "lw-2", primaryCategory := some "LIGHT" }

/-- Favorites list of the C5 witness: two active LIGHT endpoints. -/
def lightFavsWit : List Device := [lightWitA, lightWitB]

/-- C5: light auto-detection without an explicit identifier: exactly one
discovered LIGHT device is used silently, more than one resolves to the
first in discovery order rather than an error, and zero fails with the
no-matching-device error; the tool-side first-available-light resolution
follows the same first-of-list policy on the served id list. -/
theorem light_autodetect (favorites : List Device) :
    (∀ d, lightDevices favorites = [d] → getPrimaryLight favorites = Except.ok d)
    ∧ (∀ d rest, lightDevices favorites = d :: rest → getPrimaryLight favorites = Except.ok d)
    ∧ (lightDevices favorites = [] →
        getPrimaryLight favorites = Except.error "No smart home light devices found")
    ∧ (∀ d rest, lightDevices favorites = d :: rest →
        getFirstAvailableLight (listLightIds favorites) = Except.ok (extractEntityId d)) := by
  refine ⟨?_, ?_, ?_, ?_⟩
  · intro d h
    simp [getPrimaryLight, h]
  · intro d rest h
    simp [getPrimaryLight, h]
  · intro h
    simp [getPrimaryLight, h]
  · intro d rest h
    simp [getFirstAvailableLight, listLightIds, h]

/-- Witness for C5: with two LIGHT devices discovered, both resolution
paths pick the first one. -/
theorem light_autodetect_witness :
    getPrimaryLight lightFavsWit = Except.ok lightWitA
    ∧ getFirstAvailableLight (listLightIds lightFavsWit) = Except.ok (extractEntityId lightWitA) :=
  ⟨(light_autodetect lightFavsWit).2.1 lightWitA [lightWitB] (by decide),
    (light_autodetect lightFavsWit).2.2.2 lightWitA [lightWitB] (by decide)⟩

/-- The device selected by volumeTarget comes from the pre-read volume
list. -/
lemma volumeTarget_mem (volumes : List VolumeEntry) (deviceType dsn : Option String)
    (t : VolumeEntry) (h : volumeTarget volumes deviceType dsn = some t) : t ∈ volumes := by
  unfold volumeTarget at h
  split at h
  · exact List.mem_of_find?_eq_some h
  · cases volumes with
    | nil => simp at h
    | cons v vs =>
      simp [List.head?] at h
      exact h ▸ List.mem_cons_self v vs

/-- C6: an absolute volume-set request first reads the full device-volume
list and then issues one adjust-style write: whenever the route reaches
the write, the write targets a device of the pre-read list, its amount is
the requested level minus that device's pre-read current volume, and it
carries that current volume. -/
theorem volume_set_delta (volumes : List VolumeEntry) (deviceType dsn : Option String)
    (volume : Int) (w : SpeakerVolumeWrite)
    (h : volumeSet volumes deviceType dsn volume = VolumeSetResult.write w) :
    ∃ dev ∈ volumes, w.deviceType = dev.deviceType ∧ w.dsn = dev.dsn
      ∧ w.volume = dev.speakerVolume ∧ w.amount = volume - dev.speakerVolume := by
  unfold volumeSet at h
  split at h
  · simp at h
  · split at h
    · simp at h
    · split at h
      · simp at h
      · rename_i t heq
        simp only [VolumeSetResult.write.injEq] at h
        subst h
        exact ⟨t, volumeTarget_mem volumes deviceType dsn t heq, rfl, rfl, rfl, rfl⟩

/-- The single-entry volume list of the C6 witness: one device at
volume 55. -/
def volumeWitList : List VolumeEntry := [⟨"AB12", "G09", 55⟩]

/-- The write the C6 witness expects: delta minus fifteen carrying the
pre-read volume 55. -/
def volumeWriteWit : SpeakerVolumeWrite := ⟨"G09", "AB12", -15, 55, false, true⟩

/-- Witness for C6: setting volume 40 on a device currently at 55 issues
the adjust write with delta minus 15. -/
theorem volume_set_delta_witness :
    ∃ dev ∈ volumeWitList, volumeWriteWit.deviceType = dev.deviceType
      ∧ volumeWriteWit.dsn = dev.dsn
      ∧ volumeWriteWit.volume = dev.speakerVolume
      ∧ volumeWriteWit.amount = 40 - dev.speakerVolume :=
  volume_set_delta volumeWitList none none 40 volumeWriteWit (by decide)

/-- First light of the C7 scenario, reporting OFF. -/
def nightLightA : Device := { chrsEntityId := some "le-1", primaryCategory := some "LIGHT" }

/-- Second light of the C7 scenario, reporting ON. -/
def nightLightB : Device := { chrsEntityId := some "le-2", primaryCategory := some "LIGHT" }

/-- Favorites of the C7 counterexample: two discovered LIGHT devices. -/
def nightFavsCex : List Device := [nightLightA, nightLightB]

/-- Power-state reads of the C7 counterexample: the first light is OFF,
the second is ON. -/
def nightPowerCex : String → Option String :=
  fun e => if e == "le-1" then some "OFF" else if e == "le-2" then some "ON" else none

/-- Power-state reads of the C7 witness: the only light is OFF. -/
def nightPowerOffOnly : String → Option String :=
  fun e => if e == "le-1" then some "OFF" else none

/-- Counterexample to C7 as stated: at the night hour 23 a second
discovered light reports power-on, yet the announcement is still
suppressed, because the gate only consults the first-discovered light. -/
theorem night_gate_counterexample :
    isDay 23 = false
    ∧ anyLightReportsOn nightFavsCex nightPowerCex = true
    ∧ announceNightGate 23 nightFavsCex nightPowerCex = false := by
  decide

/-- C7 (amended): during day hours the gate passes every request without
consulting light state; at a night hour the request is rejected exactly
when the primary-light power read returns OFF-like state (false), the
check reads only the first-discovered light, and when all lights
(including the primary) report power-off the request is rejected. -/
theorem night_gate_amended (hour : Int) (favorites : List Device)
    (fetchPower : String → Option String) :
    (isDay hour = true → announceNightGate hour favorites fetchPower = true)
    ∧ (isDay hour = false →
        (announceNightGate hour favorites fetchPower = false
          ↔ isAnyLightOn favorites fetchPower = some false))
    ∧ (∀ d rest, lightDevices favorites = d :: rest → ∀ e, extractEntityId d = some e →
        isAnyLightOn favorites fetchPower = (fetchPower e).map (fun v => v == "ON"))
    ∧ (isDay hour = false → allLightsReportOff favorites fetchPower = true →
        ∀ d rest, lightDevices favorites = d :: rest →
        announceNightGate hour favorites fetchPower = false) := by
  refine ⟨?_, ?_, ?_, ?_⟩
  · intro h
    simp [announceNightGate, h]
  · intro h
    cases hA : isAnyLightOn favorites fetchPower with
    | none => simp [announceNightGate, h, hA]
    | some b => cases b <;> simp [announceNightGate, h, hA]
  · intro d rest hd e he
    cases hp : fetchPower e with
    | none => simp [isAnyLightOn, getPrimaryLight, hd, he, hp]
    | some v => simp [isAnyLightOn, getPrimaryLight, hd, he, hp]
  · intro h hall d rest hd
    unfold allLightsReportOff at hall
    rw [hd] at hall
    simp only [List.all_cons, Bool.and_eq_true] at hall
    obtain ⟨h1, _⟩ := hall
    cases he : extractEntityId d with
    | none => rw [he] at h1; simp at h1
    | some e =>
      rw [he] at h1
      have hpe : fetchPower e = some "OFF" := by simpa using h1
      have hlight : isAnyLightOn favorites fetchPower = some false := by
        simp [isAnyLightOn, getPrimaryLight, hd, he, hpe]
      simp [announceNightGate, h, hlight]

/-- Witness for C7 (amended): at hour 23 with the single light reporting
OFF the announcement is suppressed. -/
theorem night_gate_amended_witness :
    announceNightGate 23 [nightLightA] nightPowerOffOnly = false :=
  ((night_gate_amended 23 [nightLightA] nightPowerOffOnly).2.1 (by decide)).mpr (by decide)

/-- The non-2xx response of the C8 counterexample. -/
def upstreamCex : UpstreamResponse := ⟨500, "upstream-failure-detail"⟩

/-- Counterexample to C8 as stated: the phoenix and graph light-control
dispatch helpers surface a non-2xx response as an error carrying the
status code only — the upstream response body does not appear in the
surfaced failure. -/
theorem dispatch_error_counterexample :
    respOk upstreamCex = false
    ∧ upstreamCex.body = "upstream-failure-detail"
    ∧ controlLight upstreamCex = Except.error "Alexa control API error: 500"
    ∧ strContains "Alexa control API error: 500" upstreamCex.body = false
    ∧ controlLightGraphQL upstreamCex = Except.error "Alexa GraphQL API error: 500"
    ∧ strContains "Alexa GraphQL API error: 500" upstreamCex.body = false :=
  ⟨by decide, rfl, rfl, by decide, rfl, by decide⟩

/-- C8 (amended): every dispatch path surfaces a non-2xx upstream
response as a structured error, never silently: the light phoenix and
graph paths carry the status code (only), while the volume, DND and
announcement paths carry both the status code and the response body. -/
theorem dispatch_error_surfacing (r : UpstreamResponse) (h : respOk r = false) :
    (∃ msg, controlLight r = Except.error msg
      ∧ strContains msg (toString r.status) = true)
    ∧ (∃ msg, controlLightGraphQL r = Except.error msg
      ∧ strContains msg (toString r.status) = true)
    ∧ (∃ msg, volumeSetUpstream r = Except.error (r.status, msg)
      ∧ strContains msg (toString r.status) = true ∧ strContains msg r.body = true)
    ∧ (∃ msg, dndStatusUpstream r = Except.error msg
      ∧ strContains msg (toString r.status) = true ∧ strContains msg r.body = true)
    ∧ announceDispatch r = Except.error ⟨"Alexa API error", r.status, r.body⟩ := by
  refine ⟨?_, ?_, ?_, ?_, ?_⟩
  · exact ⟨"Alexa control API error: " ++ toString r.status,
      by simp [controlLight, h], strContains_final _ _⟩
  · exact ⟨"Alexa GraphQL API error: " ++ toString r.status,
      by simp [controlLightGraphQL, h], strContains_final _ _⟩
  · refine ⟨"Set volume failed: " ++ toString r.status ++ " - " ++ r.body,
      by simp [volumeSetUpstream, h], ?_, strContains_final _ _⟩
    have h2 := containsL_parts (toString r.status).data
      "Set volume failed: ".data (" - ".data ++ r.body.data)
    simpa [strContains, String.data_append, List.append_assoc] using h2
  · refine ⟨"Alexa API error: " ++ toString r.status ++ " - " ++ r.body,
      by simp [dndStatusUpstream, h], ?_, strContains_final _ _⟩
    have h2 := containsL_parts (toString r.status).data
      "Alexa API error: ".data (" - ".data ++ r.body.data)
    simpa [strContains, String.data_append, List.append_assoc] using h2
  · simp [announceDispatch, h]

/-- The non-2xx response of the C8 witness. -/
def upstreamWit : UpstreamResponse := ⟨502, "bad-gateway-body"⟩

/-- Witness for C8 (amended) at a concrete 502 response. -/
theorem dispatch_error_surfacing_witness :
    (∃ msg, controlLight upstreamWit = Except.error msg
      ∧ strContains msg (toString upstreamWit.status) = true)
    ∧ (∃ msg, controlLightGraphQL upstreamWit = Except.error msg
      ∧ strContains msg (toString upstreamWit.status) = true)
    ∧ (∃ msg, volumeSetUpstream upstreamWit = Except.error (upstreamWit.status, msg)
      ∧ strContains msg (toString upstreamWit.status) = true
      ∧ strContains msg upstreamWit.body = true)
    ∧ (∃ msg, dndStatusUpstream upstreamWit = Except.error msg
      ∧ strContains msg (toString upstreamWit.status) = true
      ∧ strContains msg upstreamWit.body = true)
    ∧ announceDispatch upstreamWit
        = Except.error ⟨"Alexa API error", upstreamWit.status, upstreamWit.body⟩ :=
  dispatch_error_surfacing upstreamWit (by decide)

/-- The C9 counterexample device whose family is echo in lower case. -/
def echoFamilyLowerCex : FlatDevice := { deviceFamily := some "echo" }

/-- The C9 counterexample device matched only through its name. -/
def echoNameOnlyCex : FlatDevice := { deviceName := some "Kitchen Echo" }

/-- Counterexample to C9 as stated: a device whose family is echo in
lower case satisfies the claimed case-insensitive family test but is not
classified as an Echo device, while a device recognizable only by its
device name is classified Echo although neither its family nor its type
mentions echo. -/
theorem echo_classification_counterexample :
    echoClaimCI echoFamilyLowerCex = true
    ∧ isEchoSensorDevice echoFamilyLowerCex = false
    ∧ echoClaimCI echoNameOnlyCex = false
    ∧ isEchoSensorDevice echoNameOnlyCex = true := by
  decide

/-- C9 (amended): the sensors-route classification holds exactly when the
family equals ECHO, or the device type contains ECHO case-sensitively, or
the lowercased account name or device name contains echo; and the
primary-Echo resolution returns only an online device whose family equals
ECHO exactly. -/
theorem echo_classification (d : FlatDevice) (devices : List FlatDevice) (e : FlatDevice) :
    (isEchoSensorDevice d = true ↔
      d.deviceFamily = some "ECHO"
      ∨ (∃ t, d.deviceType = some t ∧ strContains t "ECHO" = true)
      ∨ (∃ n, d.accountName = some n ∧ strContains (strToLower n) "echo" = true)
      ∨ (∃ n, d.deviceName = some n ∧ strContains (strToLower n) "echo" = true))
    ∧ (getPrimaryEchoDevice devices = Except.ok e →
        e.deviceFamily = some "ECHO" ∧ e.online = true ∧ e ∈ devices) := by
  constructor
  · simp [isEchoSensorDevice, Bool.or_eq_true, optTest_eq_true, or_assoc]
  · intro h
    unfold getPrimaryEchoDevice at h
    split at h
    · simp at h
    · rename_i d0 tl heq
      simp only [Except.ok.injEq] at h
      subst h
      have hmem : d0 ∈ devices.filter (fun d => d.deviceFamily == some "ECHO" && d.online) := by
        rw [heq]
        exact List.mem_cons_self d0 tl
      have hsplit := List.mem_filter.mp hmem
      have hpred := hsplit.2
      simp only [Bool.and_eq_true, beq_iff_eq] at hpred
      exact ⟨hpred.1, hpred.2, hsplit.1⟩

/-- The online ECHO-family device of the C9 witness. -/
def echoWitDevice : FlatDevice := { deviceFamily := some "ECHO", online := true }

/-- Witness for C9 (amended): the primary-Echo resolution on a singleton
list returns that ECHO-family online device. -/
theorem echo_classification_witness :
    echoWitDevice.deviceFamily = some "ECHO" ∧ echoWitDevice.online = true
      ∧ echoWitDevice ∈ [echoWitDevice] :=
  (echo_classification echoWitDevice [echoWitDevice] echoWitDevice).2 rfl

/-- C10: the falsy-coalescing response defaults replace parsed zero
readings: a temperature of 0 CELSIUS is reported as celsius null with
fahrenheit 32, an illuminance of 0 is reported as null, and a brightness
of 0 is reported as 0, whatever the other readings are. -/
theorem falsy_zero_coalescing (tp : Option TempValue) (il : Option ℚ)
    (mo pw : Option String) (br : Option ℚ) (co : Option String) :
    (buildBedroomResponse (some ⟨0, "CELSIUS"⟩) il mo pw br co).celsius = none
    ∧ (buildBedroomResponse (some ⟨0, "CELSIUS"⟩) il mo pw br co).fahrenheit = some 32
    ∧ (buildBedroomResponse tp (some 0) mo pw br co).illuminance = none
    ∧ (buildBedroomResponse tp il mo pw (some 0) co).brightness = 0 := by
  refine ⟨?_, ?_, ?_, ?_⟩
  · norm_num [buildBedroomResponse, extractTemperature, jsNumOrNull]
  · norm_num [buildBedroomResponse, extractTemperature, jsNumOrNull]
  · norm_num [buildBedroomResponse, jsNumOrNull]
  · norm_num [buildBedroomResponse, jsNumOrZero]

end Alexa
